import Mathlib

/-!
# Credential issuance and rotation (main.go)

A shallow embedding of the token service of `main.go`: the refresh-secret
generator, the bcrypt wrappers, the JWT helpers, the Mongo-backed session store and
the two HTTP handlers, followed by the properties proved about them.

Conventions of the embedding.

* A Go `string` is its byte sequence (`GoString`).
* `time.Time` is a number of nanoseconds since the epoch (`Time`), read in the zone
  of the server, taken to have a fixed offset; every `time.Now()` of the source is
  an explicit argument, so a handler receives one reading per call it makes.
* The external libraries are not part of the sources. The JWT library
  (github.com/golang-jwt/jwt) is an interface, `Jwt`: what it signs and how it
  judges a token is a parameter, and what the source does with its verdict is
  embedded line by line. Of bcrypt (golang.org/x/crypto/bcrypt) the checksum is a
  parameter, `Bcrypt`, and the 72-byte limit is modelled. The Mongo collection is
  a list of documents with unique ids that keeps instants as BSON datetimes, to
  the millisecond, and a failure of the store is an input of the handlers.
* A Go panic and a `log.Fatal` are outcomes of their own (`Go.panic`,
  `Outcome.panic`, `Outcome.fatal`), never silently dropped.
-/

namespace Medods

set_option linter.dupNamespace false

/-! ## Strings, time, configuration -/

/-- One byte of a Go string. -/
abbrev Byte := Fin 256

/-- Go `string` / `[]byte`: a sequence of bytes. -/
abbrev GoString := List Byte

/-- Instants, in nanoseconds since the epoch. -/
abbrev Time := Nat

/-- Conversion of a number to a byte, reduced modulo 256. -/
def byte (n : Nat) : Byte := ⟨n % 256, Nat.mod_lt _ (by decide)⟩

/-- One second, `time.Second`, in nanoseconds. -/
def second : Nat := 1000000000

/-- One minute, `time.Minute`. -/
def minute : Nat := 60 * second

/-- One hour, `time.Hour`. -/
def hour : Nat := 60 * minute

/-- Signing key, main.go:26, the bytes of "SECRET". -/
def secretKey : GoString := [83, 69, 67, 82, 69, 84]

/-- Lifetime of an access token, main.go:27. -/
def jwtExpirationTime : Nat := 60 * minute

/-- Lifetime of a refresh token, main.go:28. -/
def refreshExpirationTime : Nat := 30 * 24 * hour

/-! ## encoding/base64, StdEncoding -/

/-- Alphabet of `base64.StdEncoding`. -/
def encodeStd : List Char :=
  "ABCDEFGHIJKLMNOPQRSTUVWXYZabcdefghijklmnopqrstuvwxyz0123456789+/".toList

/-- Character of the alphabet standing for the 6-bit value `i`. -/
def alphabet (i : Nat) : Byte := byte (encodeStd.getD i 'A').toNat

/-- Padding character of `base64.StdEncoding`. -/
def padChar : Byte := byte '='.toNat

/-- Function `base64.StdEncoding.EncodeToString`: three input bytes make a 24-bit
value that is written as four characters; a tail of one or two bytes is padded. -/
def EncodeToString : GoString → GoString
  | a :: b :: c :: rest =>
    let val := a.val * 65536 + b.val * 256 + c.val
    alphabet (val / 262144 % 64) :: alphabet (val / 4096 % 64) ::
      alphabet (val / 64 % 64) :: alphabet (val % 64) :: EncodeToString rest
  | [a, b] =>
    let val := a.val * 65536 + b.val * 256
    [alphabet (val / 262144 % 64), alphabet (val / 4096 % 64), alphabet (val / 64 % 64), padChar]
  | [a] =>
    let val := a.val * 65536
    [alphabet (val / 262144 % 64), alphabet (val / 4096 % 64), padChar, padChar]
  | [] => []

/-! ## generateRefreshToken (main.go:161-166) -/

/-- ASCII digit of `d mod 10`. -/
def digit (d : Nat) : Byte := byte (48 + d % 10)

/-- Method `Time.Format` with the layout "15:04:05.00000": hour, minute and second
of the day on two digits each and the fraction of the second on five digits
(truncated), with no date. -/
def Format (t : Time) : GoString :=
  let h := t / hour % 24
  let m := t / minute % 60
  let s := t / second % 60
  let f := t % second / 10000
  [digit (h / 10), digit h, byte ':'.toNat, digit (m / 10), digit m, byte ':'.toNat,
   digit (s / 10), digit s, byte '.'.toNat,
   digit (f / 10000), digit (f / 1000), digit (f / 100), digit (f / 10), digit f]

/-- Function generateRefreshToken of main.go:161; `now` is its `time.Now()`. -/
def generateRefreshToken (now : Time) (guid : GoString) : GoString :=
  let t := Format now
  let bytes := guid ++ t
  EncodeToString bytes

/-! ## golang.org/x/crypto/bcrypt -/

/-- A parsed bcrypt hash string: cost, salt and checksum. -/
structure Hashed where
  cost : Nat
  salt : Nat
  sum : Nat
deriving DecidableEq, Repr

/-- Modelled from the spec: golang.org/x/crypto/bcrypt is not part of the sources.
The Hasher of the spec produces a salted one-way digest at a fixed cost; the
Blowfish-based checksum of a key under a cost and a salt is left as a parameter. -/
structure Bcrypt where
  digest : Nat → Nat → GoString → Nat

/-- Modelled from the spec: the length limit of the underlying primitive, which the
sources do not state; bcrypt reads no more than 72 bytes of its key. -/
def maxPasswordLength : Nat := 72

/-- Modelled from the spec: the internal `bcrypt(password, cost, salt)` of the
library, not part of the sources; only the first 72 bytes of the password reach the
checksum. -/
def bcryptSum (B : Bcrypt) (password : GoString) (cost salt : Nat) : Nat :=
  B.digest cost salt (password.take maxPasswordLength)

/-- Modelled from the spec: `bcrypt.GenerateFromPassword`, not part of the sources.
Hashing fails when the secret exceeds the length limit of the primitive (`none`,
the library's `ErrPasswordTooLong`); `salt` is the random salt it draws. -/
def GenerateFromPassword (B : Bcrypt) (salt : Nat) (password : GoString) (cost : Nat) :
    Option Hashed :=
  if password.length > maxPasswordLength then none
  else some ⟨cost, salt, bcryptSum B password cost salt⟩

/-- Modelled from the spec: `bcrypt.CompareHashAndPassword`, not part of the
sources; `true` stands for a nil error. It recomputes the checksum under the
stored cost and salt and compares; the library puts no bound on the length of the
password here. -/
def CompareHashAndPassword (B : Bcrypt) (hashedPassword : Hashed) (password : GoString) : Bool :=
  bcryptSum B password hashedPassword.cost hashedPassword.salt == hashedPassword.sum

/-- Function hashRefreshToken of main.go:193; `none` is a non-nil error. -/
def hashRefreshToken (B : Bcrypt) (salt : Nat) (refreshToken : GoString) : Option Hashed :=
  GenerateFromPassword B salt refreshToken 10

/-- Function checkRefreshTokenHash of main.go:198. -/
def checkRefreshTokenHash (B : Bcrypt) (refreshToken : GoString) (hash : Hashed) : Bool :=
  CompareHashAndPassword B hash refreshToken

/-! ## github.com/golang-jwt/jwt -/

/-- The claims generateJWT puts in a token: "exp", the `time.Time` value the source
stores there, and "guid". -/
structure Claims where
  exp : Time
  guid : GoString
deriving DecidableEq, Repr

/-- A Go `error` as returned by `jwt.ParseWithClaims`. -/
inductive GoError where
  /-- The nil error: the token is valid. -/
  | nil
  /-- A `*jwt.ValidationError` with its `Errors` bit field. -/
  | validation (errors : Nat)
  /-- A non-nil error of another dynamic type. -/
  | other
deriving DecidableEq, Repr

/-- Library constant `jwt.ValidationErrorMalformed`, `1 << 0`. -/
def ValidationErrorMalformed : Nat := 1

/-- Library constant `jwt.ValidationErrorUnverifiable`, `1 << 1`. -/
def ValidationErrorUnverifiable : Nat := 2

/-- Library constant `jwt.ValidationErrorSignatureInvalid`, `1 << 2`. -/
def ValidationErrorSignatureInvalid : Nat := 4

/-- Library constant `jwt.ValidationErrorExpired`, `1 << 4`. -/
def ValidationErrorExpired : Nat := 16

/-- What `jwt.ParseWithClaims` leaves behind: the "guid" claim of the parsed
claims when there is one and it is a string, and the error. -/
structure Parsed where
  guid : Option GoString
  err : GoError
deriving DecidableEq, Repr

/-- The JWT library over a type `Tok` of token strings: `SignedString` under a key
(`none` is an error) and `ParseWithClaims` under a key at an instant. -/
structure Jwt (Tok : Type) where
  SignedString : Claims → GoString → Option Tok
  ParseWithClaims : Tok → GoString → Time → Parsed

/-- Result of a Go function that may panic. -/
inductive Go (α : Type) where
  | ret (a : α)
  | panic
deriving DecidableEq, Repr

/-- Function generateJWT of main.go:135; `now` is its `time.Now()` and `none` a
non-nil error. -/
def generateJWT {Tok : Type} (J : Jwt Tok) (now : Time) (guid : GoString) : Option Tok :=
  J.SignedString ⟨now + jwtExpirationTime, guid⟩ secretKey

/-- Function decodeGuidFromJWT of main.go:147. The unchecked assertion
`v, _ := err.(*jwt.ValidationError)` leaves `v` nil unless `err` is a validation
error, and `v.Errors` then dereferences a nil pointer; `claims["guid"].(string)`
panics when the claim is not a string. -/
def decodeGuidFromJWT {Tok : Type} (J : Jwt Tok) (now : Time) (jwtToken : Tok) :
    Go (GoString × GoError) :=
  let p := J.ParseWithClaims jwtToken secretKey now
  match p.err with
  | .validation errors =>
    if errors = ValidationErrorExpired then
      match p.guid with
      | some g => .ret (g, .nil)
      | none => .panic
    else .ret ([], p.err)
  | _ => .panic

/-! ## The Mongo collection -/

/-- Document of the collection, main.go:47. -/
structure UserRefreshToken where
  Guid : GoString
  RefreshToken : Hashed
  ExpirationTime : Time
deriving DecidableEq, Repr

/-- The collection: its documents, at most one per `_id`. -/
abbrev Collection := List UserRefreshToken

/-- Invariant of a Mongo collection: `_id` is unique. -/
def UniqueIds (c : Collection) : Prop := (c.map (·.Guid)).Nodup

/-- The documents of the collection whose `_id` is `guid`. -/
def documentsOf (c : Collection) (guid : GoString) : List UserRefreshToken :=
  c.filter (fun d => decide (d.Guid = guid))

/-- Method `FindOne` with the filter `_id = guid`; `none` is `ErrNoDocuments`. -/
def FindOne (c : Collection) (guid : GoString) : Option UserRefreshToken :=
  c.find? (fun d => decide (d.Guid = guid))

/-- Method `UpdateOne` with the filter `_id = guid`, the update `$set` of
`refresh_token` and `expiration_time`, and the upsert option. -/
def UpdateOne (c : Collection) (guid : GoString) (refreshToken : Hashed) (expiration : Time) :
    Collection :=
  match c with
  | [] => [⟨guid, refreshToken, expiration⟩]
  | d :: ds =>
    if d.Guid = guid then ⟨d.Guid, refreshToken, expiration⟩ :: ds
    else d :: UpdateOne ds guid refreshToken expiration

/-- A `time.Time` as the driver writes it into a document: a BSON datetime counts
whole milliseconds since the epoch, so the instant read back is the instant
written cut to the millisecond. -/
def bsonDateTime (t : Nat) : Nat := t / 1000000 * 1000000

/-- Function upsertRefreshToken of main.go:183; `now` is its `time.Now()`,
`storeErr` says that `UpdateOne` returns an error, and `none` is the `log.Fatal`
that follows: the process exits. The expiration goes into the update document as
a BSON datetime. -/
def upsertRefreshToken (storeErr : Bool) (now : Time) (c : Collection) (guid : GoString)
    (refreshToken : Hashed) : Option Collection :=
  if storeErr then none
  else some (UpdateOne c guid refreshToken (bsonDateTime (now + refreshExpirationTime)))

/-! ## The handlers -/

/-- JSON body of an error response, main.go:32. -/
structure ErrorMessage where
  StatusCode : Nat
  ErrorMessage : String
deriving DecidableEq, Repr

/-- JSON body of a successful response and of a refresh request, main.go:37. -/
structure TokenPair (Tok : Type) where
  AccessToken : Tok
  RefreshToken : GoString
deriving DecidableEq, Repr

/-- How a request ends. -/
inductive Outcome (Tok : Type) where
  /-- Function handleError: the status code and the JSON error message. -/
  | error (e : ErrorMessage)
  /-- Status 200 with a JSON token pair. -/
  | tokens (p : TokenPair Tok)
  /-- The handler panics: no body is written. -/
  | panic
  /-- A `log.Fatal`: the process exits. -/
  | fatal
deriving DecidableEq, Repr

/-- One access to the collection. -/
inductive StoreOp where
  | find (guid : GoString)
  | update (guid : GoString)
deriving DecidableEq, Repr

/-- Result of a handler: the outcome, the collection afterwards and the accesses
made to the collection, in order. -/
structure Result (Tok : Type) where
  out : Outcome Tok
  db : Collection
  ops : List StoreOp
deriving DecidableEq, Repr

/-- What handleAuthRoute reads from its environment: the clock at each
`time.Now()`, the salt bcrypt draws, and whether `UpdateOne` fails. -/
structure AuthEnv where
  nowJWT : Time
  nowRefresh : Time
  nowUpsert : Time
  salt : Nat
  upsertErr : Bool
deriving DecidableEq, Repr

/-- What handleRefreshRoute reads from its environment: the clock at the parse of
the token and at each `time.Now()`, the salt bcrypt draws, and whether `FindOne`
(with an error other than no document) and `UpdateOne` fail. -/
structure RefreshEnv where
  nowParse : Time
  nowJWT : Time
  nowAfter : Time
  nowRefresh : Time
  nowUpsert : Time
  salt : Nat
  findErr : Bool
  upsertErr : Bool
deriving DecidableEq, Repr

/-- Response of main.go:62 and 89. -/
def errMethod : ErrorMessage := ⟨405, "Метод запрещен"⟩

/-- Response of main.go:67. -/
def errNoGuid : ErrorMessage := ⟨400, "Не указан GUID пользователя"⟩

/-- Response of main.go:72, 78, 96, 101, 106 and 127. -/
def errServer : ErrorMessage := ⟨500, "Возникла ошибка сервера"⟩

/-- Response of main.go:113. -/
def errNotFound : ErrorMessage := ⟨404, "Пользователь которому принадлежит токен не найден"⟩

/-- Response of main.go:117. -/
def errRefreshExpired : ErrorMessage := ⟨400, "Токен обновления устарел"⟩

/-- Response of main.go:121. -/
def errRefreshMismatch : ErrorMessage := ⟨400, "Неверный токен обновления"⟩

/-- Function handleAuthRoute of main.go:59; `method` is `r.Method` and `guid` the
query parameter, empty when absent. -/
def handleAuthRoute {Tok : Type} (J : Jwt Tok) (B : Bcrypt) (env : AuthEnv)
    (method : String) (guid : GoString) (db : Collection) : Result Tok :=
  if method ≠ "GET" then ⟨.error errMethod, db, []⟩
  else if guid = [] then ⟨.error errNoGuid, db, []⟩
  else
    match generateJWT J env.nowJWT guid with
    | none => ⟨.error errServer, db, []⟩
    | some jwtToken =>
      let refreshToken := generateRefreshToken env.nowRefresh guid
      match hashRefreshToken B env.salt refreshToken with
      | none => ⟨.error errServer, db, []⟩
      | some hashedRefreshToken =>
        match upsertRefreshToken env.upsertErr env.nowUpsert db guid hashedRefreshToken with
        | none => ⟨.fatal, db, [.update guid]⟩
        | some db2 => ⟨.tokens ⟨jwtToken, refreshToken⟩, db2, [.update guid]⟩

/-- Function handleRefreshRoute of main.go:86; `method` is `r.Method` and `body`
the decoded JSON body, `none` when decoding fails. -/
def handleRefreshRoute {Tok : Type} (J : Jwt Tok) (B : Bcrypt) (env : RefreshEnv)
    (method : String) (body : Option (TokenPair Tok)) (db : Collection) : Result Tok :=
  if method ≠ "POST" then ⟨.error errMethod, db, []⟩
  else
    match body with
    | none => ⟨.error errServer, db, []⟩
    | some bodyData =>
      match decodeGuidFromJWT J env.nowParse bodyData.AccessToken with
      | .panic => ⟨.panic, db, []⟩
      | .ret (guid, err) =>
        if err ≠ .nil then ⟨.error errServer, db, []⟩
        else
          match generateJWT J env.nowJWT guid with
          | none => ⟨.error errServer, db, []⟩
          | some jwtToken =>
            match (if env.findErr then none else FindOne db guid) with
            | none => ⟨.error errNotFound, db, [.find guid]⟩
            | some result =>
              if env.nowAfter > result.ExpirationTime then
                ⟨.error errRefreshExpired, db, [.find guid]⟩
              else if !checkRefreshTokenHash B bodyData.RefreshToken result.RefreshToken then
                ⟨.error errRefreshMismatch, db, [.find guid]⟩
              else
                let refreshToken := generateRefreshToken env.nowRefresh guid
                match hashRefreshToken B env.salt refreshToken with
                | none => ⟨.error errServer, db, [.find guid]⟩
                | some hashedRefreshToken =>
                  match upsertRefreshToken env.upsertErr env.nowUpsert db guid
                      hashedRefreshToken with
                  | none => ⟨.fatal, db, [.find guid, .update guid]⟩
                  | some db2 =>
                    ⟨.tokens ⟨jwtToken, refreshToken⟩, db2, [.find guid, .update guid]⟩

/-- A token of the reference codec: its claims and the key that signed it. -/
structure RefToken where
  claims : Claims
  key : GoString
deriving DecidableEq, Repr

/-- Reference JWT codec: a token verifies under the key that signed it and is
expired once the instant of the parse is later than its `exp`; the error carries
the bits of what failed. -/
def refJwt : Jwt RefToken where
  SignedString c key := some ⟨c, key⟩
  ParseWithClaims tok key now :=
    let e := (if tok.claims.exp < now then ValidationErrorExpired else 0) +
      (if tok.key = key then 0 else ValidationErrorSignatureInvalid)
    ⟨some tok.claims.guid, if e = 0 then .nil else .validation e⟩

/-- Reference JWT codec that does not read `exp`: a token verifies under the key
that signed it, whatever the instant. -/
def refJwtNoExp : Jwt RefToken where
  SignedString c key := some ⟨c, key⟩
  ParseWithClaims tok key _ :=
    ⟨some tok.claims.guid,
      if tok.key = key then .nil else .validation ValidationErrorSignatureInvalid⟩

/-- A key read as a number in base 257, each byte a digit from 1 to 256. -/
def keyNumber : GoString → Nat
  | [] => 0
  | b :: bs => b.val + 1 + 257 * keyNumber bs

/-- Reference bcrypt: the checksum is the number of the key, shifted by the cost
and the salt. -/
def refBcrypt : Bcrypt where
  digest cost salt key := keyNumber key + (cost + salt)

/-- Identity "u1" of the scenarios. -/
def u1 : GoString := [117, 49]

/-- Access token issued for "u1" at instant 0 by the reference codec. -/
def tokenA1 : RefToken := ⟨⟨jwtExpirationTime, u1⟩, secretKey⟩

/-- Environment of a request handled at the single instant `t`, with salt `salt`
and a working store. -/
def RefreshEnv.atInstant (t : Time) (salt : Nat) : RefreshEnv := ⟨t, t, t, t, t, salt, false, false⟩

/-- Result of Authenticate("u1") at instant 0 on an empty collection. -/
def issued0 : Result RefToken := handleAuthRoute refJwt refBcrypt ⟨0, 0, 0, 7, false⟩ "GET" u1 []

/-- An identity of 41 bytes. -/
def guid41 : GoString := List.replicate 41 97

theorem alphabet_val (i : Fin 64) : (alphabet i.val).val =
    if i.val < 26 then 65 + i.val else if i.val < 52 then 71 + i.val
    else if i.val < 62 then i.val - 4 else if i.val = 62 then 43 else 47 := by
  revert i; decide

theorem alphabet_inj {i j : Nat} (hi : i < 64) (hj : j < 64) (h : alphabet i = alphabet j) :
    i = j := by
  have h1 := alphabet_val ⟨i, hi⟩
  have h2 := alphabet_val ⟨j, hj⟩
  have h3 : (alphabet i).val = (alphabet j).val := by rw [h]
  simp only at h1 h2
  rw [h1, h2] at h3
  split_ifs at h3 <;> omega

theorem alphabet_ne_padChar {i : Nat} (hi : i < 64) : alphabet i ≠ padChar := by
  intro h
  have h1 := alphabet_val ⟨i, hi⟩
  have h3 : (alphabet i).val = 61 := by rw [h]; rfl
  simp only at h1
  rw [h1] at h3
  split_ifs at h3 <;> omega

theorem EncodeToString_vectors :
    EncodeToString [102] = [90, 103, 61, 61] ∧
    EncodeToString [102, 111] = [90, 109, 56, 61] ∧
    EncodeToString [102, 111, 111] = [90, 109, 57, 118] ∧
    EncodeToString [102, 111, 111, 98, 97, 114] = [90, 109, 57, 118, 89, 109, 70, 121] ∧
    EncodeToString [255, 239, 190] = [47, 43, 43, 43] := by
  decide

theorem EncodeToString_length (src : GoString) :
    (EncodeToString src).length = 4 * ((src.length + 2) / 3) := by
  induction src using EncodeToString.induct with
  | case1 a b c rest ih =>
    simp only [EncodeToString, List.length_cons, ih]
    omega
  | case2 a b => simp [EncodeToString]
  | case3 a => simp [EncodeToString]
  | case4 => simp [EncodeToString]

theorem EncodeToString_injective : Function.Injective EncodeToString := by
  intro xs
  induction xs using EncodeToString.induct with
  | case1 a b c rest ih =>
    intro ys h
    match ys with
    | [] => simp [EncodeToString] at h
    | [x] =>
      simp only [EncodeToString, List.cons.injEq] at h
      exact absurd h.2.2.1 (alphabet_ne_padChar (Nat.mod_lt _ (by decide)))
    | [x, y] =>
      simp only [EncodeToString, List.cons.injEq] at h
      exact absurd h.2.2.2.1 (alphabet_ne_padChar (Nat.mod_lt _ (by decide)))
    | x :: y :: z :: more =>
      simp only [EncodeToString, List.cons.injEq] at h
      obtain ⟨h0, h1, h2, h3, h4⟩ := h
      have e0 := alphabet_inj (Nat.mod_lt _ (by decide)) (Nat.mod_lt _ (by decide)) h0
      have e1 := alphabet_inj (Nat.mod_lt _ (by decide)) (Nat.mod_lt _ (by decide)) h1
      have e2 := alphabet_inj (Nat.mod_lt _ (by decide)) (Nat.mod_lt _ (by decide)) h2
      have e3 := alphabet_inj (Nat.mod_lt _ (by decide)) (Nat.mod_lt _ (by decide)) h3
      have ha := a.isLt; have hb := b.isLt; have hc := c.isLt
      have hx := x.isLt; have hy := y.isLt; have hz := z.isLt
      have hax : a = x := Fin.ext (by omega)
      have hby : b = y := Fin.ext (by omega)
      have hcz : c = z := Fin.ext (by omega)
      rw [hax, hby, hcz, ih h4]
  | case2 a b =>
    intro ys h
    match ys with
    | [] => simp [EncodeToString] at h
    | [x] =>
      simp only [EncodeToString, List.cons.injEq] at h
      exact absurd h.2.2.1 (alphabet_ne_padChar (Nat.mod_lt _ (by decide)))
    | [x, y] =>
      simp only [EncodeToString, List.cons.injEq] at h
      obtain ⟨h0, h1, h2, -⟩ := h
      have e0 := alphabet_inj (Nat.mod_lt _ (by decide)) (Nat.mod_lt _ (by decide)) h0
      have e1 := alphabet_inj (Nat.mod_lt _ (by decide)) (Nat.mod_lt _ (by decide)) h1
      have e2 := alphabet_inj (Nat.mod_lt _ (by decide)) (Nat.mod_lt _ (by decide)) h2
      have ha := a.isLt; have hb := b.isLt
      have hx := x.isLt; have hy := y.isLt
      have hax : a = x := Fin.ext (by omega)
      have hby : b = y := Fin.ext (by omega)
      rw [hax, hby]
    | x :: y :: z :: more =>
      simp only [EncodeToString, List.cons.injEq] at h
      exact absurd h.2.2.2.1.symm (alphabet_ne_padChar (Nat.mod_lt _ (by decide)))
  | case3 a =>
    intro ys h
    match ys with
    | [] => simp [EncodeToString] at h
    | [x] =>
      simp only [EncodeToString, List.cons.injEq] at h
      obtain ⟨h0, h1, -⟩ := h
      have e0 := alphabet_inj (Nat.mod_lt _ (by decide)) (Nat.mod_lt _ (by decide)) h0
      have e1 := alphabet_inj (Nat.mod_lt _ (by decide)) (Nat.mod_lt _ (by decide)) h1
      have ha := a.isLt
      have hx := x.isLt
      have hax : a = x := Fin.ext (by omega)
      rw [hax]
    | [x, y] =>
      simp only [EncodeToString, List.cons.injEq] at h
      exact absurd h.2.2.1.symm (alphabet_ne_padChar (Nat.mod_lt _ (by decide)))
    | x :: y :: z :: more =>
      simp only [EncodeToString, List.cons.injEq] at h
      exact absurd h.2.2.1.symm (alphabet_ne_padChar (Nat.mod_lt _ (by decide)))
  | case4 =>
    intro ys h
    match ys with
    | [] => rfl
    | [x] => simp [EncodeToString] at h
    | [x, y] => simp [EncodeToString] at h
    | x :: y :: z :: more => simp [EncodeToString] at h

theorem Format_length (t : Time) : (Format t).length = 14 := rfl

theorem digit_inj {a b : Nat} (h : digit a = digit b) : a % 10 = b % 10 := by
  have h3 : (digit a).val = (digit b).val := by rw [h]
  simp only [digit, byte] at h3
  omega

theorem two_digits_inj {a b : Nat} (ha : a < 100) (hb : b < 100)
    (h1 : a / 10 % 10 = b / 10 % 10) (h0 : a % 10 = b % 10) : a = b := by
  omega

theorem five_digits_inj {a b : Nat} (ha : a < 100000) (hb : b < 100000)
    (h4 : a / 10000 % 10 = b / 10000 % 10) (h3 : a / 1000 % 10 = b / 1000 % 10)
    (h2 : a / 100 % 10 = b / 100 % 10) (h1 : a / 10 % 10 = b / 10 % 10)
    (h0 : a % 10 = b % 10) : a = b := by
  omega

theorem Format_eq_iff (t u : Nat) :
    Format t = Format u ↔ t % (24 * hour) / 10000 = u % (24 * hour) / 10000 := by
  constructor
  · intro h
    simp only [Format, List.cons.injEq, and_true] at h
    obtain ⟨h1, h2, -, m1, m2, -, s1, s2, -, f1, f2, f3, f4, f5⟩ := h
    have eh : t / hour % 24 = u / hour % 24 :=
      two_digits_inj (by omega) (by omega) (digit_inj h1) (digit_inj h2)
    have em : t / minute % 60 = u / minute % 60 :=
      two_digits_inj (by omega) (by omega) (digit_inj m1) (digit_inj m2)
    have es : t / second % 60 = u / second % 60 :=
      two_digits_inj (by omega) (by omega) (digit_inj s1) (digit_inj s2)
    have ef : t % second / 10000 = u % second / 10000 :=
      five_digits_inj (by simp only [second]; omega) (by simp only [second]; omega)
        (digit_inj f1) (digit_inj f2) (digit_inj f3) (digit_inj f4) (digit_inj f5)
    simp only [hour, minute, second] at *
    omega
  · intro h
    simp only [hour, minute, second] at h
    have eh : t / hour % 24 = u / hour % 24 := by simp only [hour, minute, second]; omega
    have em : t / minute % 60 = u / minute % 60 := by simp only [minute, second]; omega
    have es : t / second % 60 = u / second % 60 := by simp only [second]; omega
    have ef : t % second / 10000 = u % second / 10000 := by simp only [second]; omega
    simp only [Format, eh, em, es, ef]

/-! ## Store lemmas -/

theorem FindOne_UpdateOne_same (c : Collection) (guid : GoString) (h : Hashed) (t : Time) :
    FindOne (UpdateOne c guid h t) guid = some ⟨guid, h, t⟩ := by
  induction c with
  | nil => simp [UpdateOne, FindOne]
  | cons d ds ih =>
    unfold UpdateOne
    by_cases hd : d.Guid = guid
    · simp [hd, FindOne]
    · simp only [hd, if_false]
      unfold FindOne at ih ⊢
      rw [List.find?_cons_of_neg _ (by simpa using hd)]
      exact ih

theorem FindOne_UpdateOne_other (c : Collection) (guid other : GoString) (h : Hashed) (t : Time)
    (hne : other ≠ guid) :
    FindOne (UpdateOne c guid h t) other = FindOne c other := by
  induction c with
  | nil => simp [UpdateOne, FindOne, hne.symm]
  | cons d ds ih =>
    unfold UpdateOne
    by_cases hd : d.Guid = guid
    · have h1 : ¬ d.Guid = other := fun e => hne (e.symm.trans hd)
      simp only [hd, if_true, FindOne]
      rw [List.find?_cons_of_neg _ (by simpa using hne.symm),
        List.find?_cons_of_neg _ (by simpa using h1)]
    · simp only [hd, if_false]
      unfold FindOne at ih ⊢
      by_cases ho : d.Guid = other
      · rw [List.find?_cons_of_pos _ (by simpa using ho),
          List.find?_cons_of_pos _ (by simpa using ho)]
      · rw [List.find?_cons_of_neg _ (by simpa using ho),
          List.find?_cons_of_neg _ (by simpa using ho)]
        exact ih

theorem map_Guid_UpdateOne (c : Collection) (guid : GoString) (h : Hashed) (t : Time) :
    (UpdateOne c guid h t).map (·.Guid) =
      if guid ∈ c.map (·.Guid) then c.map (·.Guid) else c.map (·.Guid) ++ [guid] := by
  induction c with
  | nil => simp [UpdateOne]
  | cons d ds ih =>
    unfold UpdateOne
    by_cases hd : d.Guid = guid
    · simp [hd]
    · have hd2 : ¬ guid = d.Guid := fun e => hd e.symm
      simp only [hd, if_false, List.map_cons, ih, List.mem_cons, hd2, false_or]
      split_ifs <;> simp

theorem UniqueIds_UpdateOne (c : Collection) (guid : GoString) (h : Hashed) (t : Time)
    (hc : UniqueIds c) : UniqueIds (UpdateOne c guid h t) := by
  unfold UniqueIds at hc ⊢
  rw [map_Guid_UpdateOne]
  split_ifs with hm
  · exact hc
  · exact List.Nodup.append hc (List.nodup_singleton _) (by simpa using hm)

theorem documentsOf_length_of_unique (c : Collection) (guid : GoString) (hc : UniqueIds c)
    (hm : guid ∈ c.map (·.Guid)) : (documentsOf c guid).length = 1 := by
  induction c with
  | nil => simp at hm
  | cons d ds ih =>
    unfold UniqueIds at hc ih
    rw [List.map_cons, List.nodup_cons] at hc
    unfold documentsOf at ih ⊢
    by_cases hd : d.Guid = guid
    · have hnone : ds.filter (fun e => decide (e.Guid = guid)) = [] := by
        rw [List.filter_eq_nil_iff]
        intro e he
        have hin : e.Guid ∈ ds.map (·.Guid) := List.mem_map_of_mem _ he
        intro heq
        simp only [decide_eq_true_eq] at heq
        exact hc.1 (by rw [hd, ← heq]; exact hin)
      rw [List.filter_cons_of_pos (by simpa using hd), hnone]
      rfl
    · rw [List.filter_cons_of_neg (by simpa using hd)]
      apply ih hc.2
      rw [List.map_cons, List.mem_cons] at hm
      rcases hm with hm | hm
      · exact absurd hm.symm hd
      · exact hm

theorem mem_ids_UpdateOne (c : Collection) (guid : GoString) (h : Hashed) (t : Time) :
    guid ∈ (UpdateOne c guid h t).map (·.Guid) := by
  rw [map_Guid_UpdateOne]
  split_ifs with hm
  · exact hm
  · simp



/-! ## Unfolding the handlers -/

theorem decodeGuidFromJWT_of_nil {Tok : Type} (J : Jwt Tok) (now : Time) (tok : Tok)
    (h : (J.ParseWithClaims tok secretKey now).err = .nil) :
    decodeGuidFromJWT J now tok = .panic := by
  simp [decodeGuidFromJWT, h]

theorem handleRefreshRoute_of_nil {Tok : Type} (J : Jwt Tok) (B : Bcrypt) (env : RefreshEnv)
    (tok : Tok) (rt : GoString) (db : Collection)
    (h : (J.ParseWithClaims tok secretKey env.nowParse).err = .nil) :
    handleRefreshRoute J B env "POST" (some ⟨tok, rt⟩) db = ⟨.panic, db, []⟩ := by
  simp [handleRefreshRoute, decodeGuidFromJWT_of_nil J env.nowParse tok h]

theorem decodeGuidFromJWT_of_expired {Tok : Type} (J : Jwt Tok) (now : Time) (tok : Tok)
    (g : GoString)
    (h : J.ParseWithClaims tok secretKey now = ⟨some g, .validation ValidationErrorExpired⟩) :
    decodeGuidFromJWT J now tok = .ret (g, .nil) := by
  simp [decodeGuidFromJWT, h]

/-- What handleRefreshRoute does once the access token is accepted, the new access
token is signed and the lookup returns a document. -/
theorem handleRefreshRoute_accepted {Tok : Type} (J : Jwt Tok) (B : Bcrypt) (env : RefreshEnv)
    (tok jwtToken : Tok) (rt g : GoString) (db : Collection) (result : UserRefreshToken)
    (hdec : decodeGuidFromJWT J env.nowParse tok = .ret (g, .nil))
    (hsign : generateJWT J env.nowJWT g = some jwtToken)
    (hfe : env.findErr = false) (hrec : FindOne db g = some result) :
    handleRefreshRoute J B env "POST" (some ⟨tok, rt⟩) db =
      if env.nowAfter > result.ExpirationTime then ⟨.error errRefreshExpired, db, [.find g]⟩
      else if !checkRefreshTokenHash B rt result.RefreshToken then
        ⟨.error errRefreshMismatch, db, [.find g]⟩
      else
        match hashRefreshToken B env.salt (generateRefreshToken env.nowRefresh g) with
        | none => ⟨.error errServer, db, [.find g]⟩
        | some hashed =>
          match upsertRefreshToken env.upsertErr env.nowUpsert db g hashed with
          | none => ⟨.fatal, db, [.find g, .update g]⟩
          | some db2 =>
            ⟨.tokens ⟨jwtToken, generateRefreshToken env.nowRefresh g⟩, db2,
              [.find g, .update g]⟩ := by
  simp only [handleRefreshRoute, hdec, hsign, hfe, hrec, ne_eq, not_true_eq_false, if_false,
    Bool.false_eq_true]

/-- What a successful handleAuthRoute implies about its run. -/
theorem handleAuthRoute_tokens_inv {Tok : Type} (J : Jwt Tok) (B : Bcrypt) (env : AuthEnv)
    (g : GoString) (db : Collection) (A : Tok) (R : GoString)
    (h : (handleAuthRoute J B env "GET" g db).out = .tokens ⟨A, R⟩) :
    g ≠ [] ∧ generateJWT J env.nowJWT g = some A ∧ R = generateRefreshToken env.nowRefresh g ∧
    R.length ≤ maxPasswordLength ∧ env.upsertErr = false ∧
    handleAuthRoute J B env "GET" g db =
      ⟨.tokens ⟨A, R⟩,
        UpdateOne db g ⟨10, env.salt, bcryptSum B R 10 env.salt⟩
          (bsonDateTime (env.nowUpsert + refreshExpirationTime)), [.update g]⟩ := by
  unfold handleAuthRoute at h ⊢
  by_cases hg : g = []
  · simp [hg] at h
  · cases hj : generateJWT J env.nowJWT g with
    | none => simp [hg, hj] at h
    | some A0 =>
      by_cases hl : (generateRefreshToken env.nowRefresh g).length > maxPasswordLength
      · simp [hg, hj, hashRefreshToken, GenerateFromPassword, hl] at h
      · cases hu : env.upsertErr with
        | true => simp [hg, hj, hashRefreshToken, GenerateFromPassword, hl, upsertRefreshToken, hu] at h
        | false =>
          simp [hg, hj, hashRefreshToken, GenerateFromPassword, hl, upsertRefreshToken, hu] at h ⊢
          obtain ⟨hA, hR⟩ := h
          subst hA; subst hR
          simp
          omega


theorem ceil_div_three (m : Nat) : ⌈(m : ℚ) / 3⌉₊ = (m + 2) / 3 := by
  apply le_antisymm
  · rw [Nat.ceil_le]
    have h : m ≤ 3 * ((m + 2) / 3) := by omega
    have h2 : (m : ℚ) ≤ 3 * (((m + 2) / 3 : ℕ) : ℚ) := by exact_mod_cast h
    linarith
  · have h := Nat.le_ceil ((m : ℚ) / 3)
    have h2 : (m : ℚ) ≤ 3 * (⌈(m : ℚ) / 3⌉₊ : ℚ) := by linarith
    have h3 : m ≤ 3 * ⌈(m : ℚ) / 3⌉₊ := by exact_mod_cast h2
    omega

theorem length_generateRefreshToken (now : Time) (guid : GoString) :
    (generateRefreshToken now guid).length = 4 * ((guid.length + 14 + 2) / 3) := by
  simp only [generateRefreshToken, EncodeToString_length, List.length_append, Format_length]

/-- C10: generateRefreshToken is the standard base64 encoding of the identity
followed by the 14-byte time-of-day stamp; its length is `4 * ceil((n + 14) / 3)`
for an identity of `n` bytes, which is at most 72 (the bound of bcrypt) exactly
when `n ≤ 40` and more than 72 exactly when `n ≥ 41`. -/
theorem generateRefreshToken_length (now : Time) (guid : GoString) :
    generateRefreshToken now guid = EncodeToString (guid ++ Format now) ∧
    (Format now).length = 14 ∧
    (generateRefreshToken now guid).length = 4 * ⌈((guid.length + 14 : ℕ) : ℚ) / 3⌉₊ ∧
    ((generateRefreshToken now guid).length ≤ maxPasswordLength ↔ guid.length ≤ 40) ∧
    (maxPasswordLength < (generateRefreshToken now guid).length ↔ 41 ≤ guid.length) := by
  have hlen := length_generateRefreshToken now guid
  refine ⟨rfl, rfl, ?_, ?_, ?_⟩
  · rw [hlen, ceil_div_three]
  · rw [hlen]; simp only [maxPasswordLength]; omega
  · rw [hlen]; simp only [maxPasswordLength]; omega

/-- C4 (as amended): two instants give the same refresh secret for an identity
exactly when they fall in the same 10-microsecond tick of the day; the date is not
part of the secret. -/
theorem generateRefreshToken_eq_iff (guid : GoString) (t1 t2 : Nat) :
    generateRefreshToken t1 guid = generateRefreshToken t2 guid ↔
      t1 % (24 * hour) / 10000 = t2 % (24 * hour) / 10000 := by
  rw [← Format_eq_iff]
  constructor
  · intro h
    exact List.append_cancel_left (EncodeToString_injective h)
  · intro h
    simp only [generateRefreshToken, h]

/-- C4 (counterexample): one day after Authenticate("u1") at instant 0 the
generator returns the secret it returned at instant 0, and the Refresh made at that
instant with the issued pair succeeds and hands back the secret that was
presented. -/
theorem refresh_secret_repeats_next_day :
    (0 : Nat) < 24 * hour ∧
    generateRefreshToken 0 u1 = generateRefreshToken (24 * hour) u1 ∧
    (handleAuthRoute refJwt refBcrypt ⟨0, 0, 0, 7, false⟩ "GET" u1 []).out =
      .tokens ⟨⟨⟨jwtExpirationTime, u1⟩, secretKey⟩, generateRefreshToken 0 u1⟩ ∧
    (handleRefreshRoute refJwt refBcrypt
        ⟨24 * hour, 24 * hour, 24 * hour, 24 * hour, 24 * hour, 8, false, false⟩ "POST"
        (some ⟨⟨⟨jwtExpirationTime, u1⟩, secretKey⟩, generateRefreshToken 0 u1⟩)
        (handleAuthRoute refJwt refBcrypt ⟨0, 0, 0, 7, false⟩ "GET" u1 []).db).out =
      .tokens ⟨⟨⟨24 * hour + jwtExpirationTime, u1⟩, secretKey⟩, generateRefreshToken 0 u1⟩ := by
  decide


/-! ## Claims on the access token -/

/-- C1 (failing input): Authenticate("u1") at instant 0 issues a pair; the library
accepts the issued access token at instant 0 with a nil error, and then
decodeGuidFromJWT panics instead of returning an error, and handleRefreshRoute
panics with it: no error response is written. -/
theorem refresh_with_valid_token_panics :
    issued0.out = .tokens ⟨tokenA1, generateRefreshToken 0 u1⟩ ∧
    refJwt.ParseWithClaims tokenA1 secretKey 0 = ⟨some u1, .nil⟩ ∧
    decodeGuidFromJWT refJwt 0 tokenA1 = .panic ∧
    handleRefreshRoute refJwt refBcrypt (RefreshEnv.atInstant 0 8) "POST"
      (some ⟨tokenA1, generateRefreshToken 0 u1⟩) issued0.db = ⟨.panic, issued0.db, []⟩ := by
  decide

/-- C3: when the library reports a validation error whose bits include
`ValidationErrorSignatureInvalid` (alone or with the expiry bit), decodeGuidFromJWT
returns that error, and handleRefreshRoute answers with the error response of
main.go:101 whatever the collection holds, without any access to it. -/
theorem refresh_rejects_bad_signature {Tok : Type} (J : Jwt Tok) (B : Bcrypt)
    (env : RefreshEnv) (tok : Tok) (rt : GoString) (db : Collection) (errors : Nat)
    (hparse : (J.ParseWithClaims tok secretKey env.nowParse).err = .validation errors)
    (hsig : errors &&& ValidationErrorSignatureInvalid ≠ 0) :
    decodeGuidFromJWT J env.nowParse tok = .ret ([], .validation errors) ∧
    handleRefreshRoute J B env "POST" (some ⟨tok, rt⟩) db = ⟨.error errServer, db, []⟩ := by
  have hne : errors ≠ ValidationErrorExpired := by
    intro h
    subst h
    exact hsig (by decide)
  have hdec : decodeGuidFromJWT J env.nowParse tok = .ret ([], .validation errors) := by
    simp [decodeGuidFromJWT, hparse, hne]
  exact ⟨hdec, by simp [handleRefreshRoute, hdec]⟩

/-- C3 (witness): a token for "u1" signed under another key, expired or not, with
the collection left by Authenticate("u1"). -/
theorem refresh_rejects_bad_signature_witness :
    (decodeGuidFromJWT refJwt (2 * hour) (⟨⟨jwtExpirationTime, u1⟩, [1]⟩ : RefToken) =
        .ret ([], .validation 20) ∧
      handleRefreshRoute refJwt refBcrypt (RefreshEnv.atInstant (2 * hour) 8) "POST"
        (some ⟨⟨⟨jwtExpirationTime, u1⟩, [1]⟩, generateRefreshToken 0 u1⟩) issued0.db =
        ⟨.error errServer, issued0.db, []⟩) :=
  refresh_rejects_bad_signature refJwt refBcrypt (RefreshEnv.atInstant (2 * hour) 8)
    ⟨⟨jwtExpirationTime, u1⟩, [1]⟩ (generateRefreshToken 0 u1) issued0.db 20
    (by decide) (by decide)

/-! ## Claims on the refresh flow -/

/-- C5: once the access token is accepted and the lookup returns a document, the
answer is the expired-refresh-token response exactly when the instant of the check
is strictly later than the stored expiration; it is then that response for every
presented refresh secret, and the collection is unchanged. -/
theorem refresh_expired_iff {Tok : Type} (J : Jwt Tok) (B : Bcrypt) (env : RefreshEnv)
    (tok jwtToken : Tok) (rt g : GoString) (db : Collection) (result : UserRefreshToken)
    (hdec : decodeGuidFromJWT J env.nowParse tok = .ret (g, .nil))
    (hsign : generateJWT J env.nowJWT g = some jwtToken)
    (hfe : env.findErr = false) (hrec : FindOne db g = some result) :
    ((handleRefreshRoute J B env "POST" (some ⟨tok, rt⟩) db).out = .error errRefreshExpired ↔
      env.nowAfter > result.ExpirationTime) ∧
    (env.nowAfter > result.ExpirationTime →
      ∀ rt2 : GoString, handleRefreshRoute J B env "POST" (some ⟨tok, rt2⟩) db =
        ⟨.error errRefreshExpired, db, [.find g]⟩) := by
  constructor
  · rw [handleRefreshRoute_accepted J B env tok jwtToken rt g db result hdec hsign hfe hrec]
    constructor
    · intro h
      by_contra hn
      rw [if_neg hn] at h
      split at h
      · simp [errRefreshMismatch, errRefreshExpired] at h
      · split at h
        · simp [errServer, errRefreshExpired] at h
        · split at h
          · simp at h
          · simp at h
    · intro h
      rw [if_pos h]
  · intro h rt2
    rw [handleRefreshRoute_accepted J B env tok jwtToken rt2 g db result hdec hsign hfe hrec,
      if_pos h]

/-- C5 (witness): 31 days after Authenticate("u1") the session has expired, with
the right secret as with a wrong one. -/
theorem refresh_expired_iff_witness :
    ((handleRefreshRoute refJwt refBcrypt (RefreshEnv.atInstant (31 * 24 * hour) 8) "POST"
        (some ⟨tokenA1, generateRefreshToken 0 u1⟩) issued0.db).out = .error errRefreshExpired ↔
      (RefreshEnv.atInstant (31 * 24 * hour) 8).nowAfter > refreshExpirationTime) ∧
    ((RefreshEnv.atInstant (31 * 24 * hour) 8).nowAfter > refreshExpirationTime →
      ∀ rt2 : GoString, handleRefreshRoute refJwt refBcrypt (RefreshEnv.atInstant (31 * 24 * hour) 8)
        "POST" (some ⟨tokenA1, rt2⟩) issued0.db =
        ⟨.error errRefreshExpired, issued0.db, [.find u1]⟩) :=
  refresh_expired_iff refJwt refBcrypt (RefreshEnv.atInstant (31 * 24 * hour) 8) tokenA1
    ⟨⟨31 * 24 * hour + jwtExpirationTime, u1⟩, secretKey⟩ (generateRefreshToken 0 u1) u1
    issued0.db ⟨u1, ⟨10, 7, bcryptSum refBcrypt (generateRefreshToken 0 u1) 10 7⟩,
      refreshExpirationTime⟩ (by decide) (by decide) (by decide) (by decide)

/-- C6: once the access token is accepted and the lookup returns a document that
has not expired, a refresh secret that does not verify against the stored digest
gets the wrong-refresh-token response, no credentials, and the collection (so the
document, digest and expiration) is unchanged. -/
theorem refresh_mismatch {Tok : Type} (J : Jwt Tok) (B : Bcrypt) (env : RefreshEnv)
    (tok jwtToken : Tok) (rt g : GoString) (db : Collection) (result : UserRefreshToken)
    (hdec : decodeGuidFromJWT J env.nowParse tok = .ret (g, .nil))
    (hsign : generateJWT J env.nowJWT g = some jwtToken)
    (hfe : env.findErr = false) (hrec : FindOne db g = some result)
    (hlive : env.nowAfter ≤ result.ExpirationTime)
    (hbad : checkRefreshTokenHash B rt result.RefreshToken = false) :
    handleRefreshRoute J B env "POST" (some ⟨tok, rt⟩) db =
      ⟨.error errRefreshMismatch, db, [.find g]⟩ ∧
    FindOne (handleRefreshRoute J B env "POST" (some ⟨tok, rt⟩) db).db g = some result := by
  have h : handleRefreshRoute J B env "POST" (some ⟨tok, rt⟩) db =
      ⟨.error errRefreshMismatch, db, [.find g]⟩ := by
    rw [handleRefreshRoute_accepted J B env tok jwtToken rt g db result hdec hsign hfe hrec,
      if_neg (Nat.not_lt.mpr hlive)]
    simp [hbad]
  exact ⟨h, by rw [h]; exact hrec⟩

/-- C6 (witness): two hours after Authenticate("u1"), with the secret "u1" itself
in place of the issued refresh secret. -/
theorem refresh_mismatch_witness :
    handleRefreshRoute refJwt refBcrypt (RefreshEnv.atInstant (2 * hour) 8) "POST"
        (some ⟨tokenA1, u1⟩) issued0.db = ⟨.error errRefreshMismatch, issued0.db, [.find u1]⟩ ∧
    FindOne (handleRefreshRoute refJwt refBcrypt (RefreshEnv.atInstant (2 * hour) 8) "POST"
        (some ⟨tokenA1, u1⟩) issued0.db).db u1 =
      some ⟨u1, ⟨10, 7, bcryptSum refBcrypt (generateRefreshToken 0 u1) 10 7⟩,
        refreshExpirationTime⟩ :=
  refresh_mismatch refJwt refBcrypt (RefreshEnv.atInstant (2 * hour) 8) tokenA1
    ⟨⟨2 * hour + jwtExpirationTime, u1⟩, secretKey⟩ u1 u1 issued0.db
    ⟨u1, ⟨10, 7, bcryptSum refBcrypt (generateRefreshToken 0 u1) 10 7⟩, refreshExpirationTime⟩
    (by decide) (by decide) (by decide) (by decide) (by decide) (by decide)


theorem checkRefreshTokenHash_self (B : Bcrypt) (s : GoString) (cost salt : Nat) :
    checkRefreshTokenHash B s ⟨cost, salt, bcryptSum B s cost salt⟩ = true := by
  simp [checkRefreshTokenHash, CompareHashAndPassword]

theorem hashRefreshToken_of_le (B : Bcrypt) (salt : Nat) (s : GoString)
    (h : s.length ≤ maxPasswordLength) :
    hashRefreshToken B salt s = some ⟨10, salt, bcryptSum B s 10 salt⟩ := by
  simp [hashRefreshToken, GenerateFromPassword, Nat.not_lt.mpr h]

theorem hashRefreshToken_of_gt (B : Bcrypt) (salt : Nat) (s : GoString)
    (h : maxPasswordLength < s.length) : hashRefreshToken B salt s = none := by
  simp [hashRefreshToken, GenerateFromPassword, h]

/-- C2 (counterexample): Authenticate("u1") one nanosecond after the epoch issues a
pair. A Refresh with that pair exactly 30 days later is inside the window of the
claim and the reference codec reports the access token as expired, yet the answer
is the expired-refresh-token response: the stored expiration was cut to the
millisecond. Under the codec that does not read `exp`, a Refresh two hours after
the issue, also inside the window, panics. -/
theorem refresh_inside_window_fails :
    (handleAuthRoute refJwt refBcrypt ⟨1, 1, 1, 7, false⟩ "GET" u1 []).out =
      .tokens ⟨⟨⟨1 + jwtExpirationTime, u1⟩, secretKey⟩, generateRefreshToken 1 u1⟩ ∧
    (1 + jwtExpirationTime < 1 + refreshExpirationTime ∧
      1 + refreshExpirationTime ≤ 1 + refreshExpirationTime) ∧
    decodeGuidFromJWT refJwt (1 + refreshExpirationTime)
      ⟨⟨1 + jwtExpirationTime, u1⟩, secretKey⟩ = .ret (u1, .nil) ∧
    handleRefreshRoute refJwt refBcrypt (RefreshEnv.atInstant (1 + refreshExpirationTime) 8)
        "POST" (some ⟨⟨⟨1 + jwtExpirationTime, u1⟩, secretKey⟩, generateRefreshToken 1 u1⟩)
        (handleAuthRoute refJwt refBcrypt ⟨1, 1, 1, 7, false⟩ "GET" u1 []).db =
      ⟨.error errRefreshExpired,
        (handleAuthRoute refJwt refBcrypt ⟨1, 1, 1, 7, false⟩ "GET" u1 []).db, [.find u1]⟩ ∧
    (handleAuthRoute refJwtNoExp refBcrypt ⟨0, 0, 0, 7, false⟩ "GET" u1 []).out =
      .tokens ⟨tokenA1, generateRefreshToken 0 u1⟩ ∧
    (0 + jwtExpirationTime < 2 * hour ∧ 2 * hour ≤ 0 + refreshExpirationTime) ∧
    handleRefreshRoute refJwtNoExp refBcrypt (RefreshEnv.atInstant (2 * hour) 8) "POST"
        (some ⟨tokenA1, generateRefreshToken 0 u1⟩)
        (handleAuthRoute refJwtNoExp refBcrypt ⟨0, 0, 0, 7, false⟩ "GET" u1 []).db =
      ⟨.panic, (handleAuthRoute refJwtNoExp refBcrypt ⟨0, 0, 0, 7, false⟩ "GET" u1 []).db,
        []⟩ := by
  decide

/-- C2 (as amended): when Authenticate(g) has issued the pair A1, R1, a Refresh with
that pair succeeds whenever the JWT library reports A1 as expired and nothing else
at the parse, and the expiry check comes no later than the stored expiration, the
instant of the upsert plus 30 days cut to the millisecond: decodeGuidFromJWT
returns g, the handler returns a new pair, and the document of g now holds the
hash of the new refresh secret. Signing and the store are taken to work. -/
theorem refresh_after_access_expiry {Tok : Type} (J : Jwt Tok) (B : Bcrypt) (e0 : AuthEnv)
    (e1 : RefreshEnv) (g : GoString) (db0 : Collection) (A1 A2 : Tok) (R1 : GoString)
    (hauth : (handleAuthRoute J B e0 "GET" g db0).out = .tokens ⟨A1, R1⟩)
    (hparse : J.ParseWithClaims A1 secretKey e1.nowParse =
      ⟨some g, .validation ValidationErrorExpired⟩)
    (hlive : e1.nowAfter ≤ bsonDateTime (e0.nowUpsert + refreshExpirationTime))
    (hsign : generateJWT J e1.nowJWT g = some A2)
    (hfe : e1.findErr = false) (hue : e1.upsertErr = false) :
    decodeGuidFromJWT J e1.nowParse A1 = .ret (g, .nil) ∧
    hashRefreshToken B e1.salt (generateRefreshToken e1.nowRefresh g) =
      some ⟨10, e1.salt, bcryptSum B (generateRefreshToken e1.nowRefresh g) 10 e1.salt⟩ ∧
    handleRefreshRoute J B e1 "POST" (some ⟨A1, R1⟩) (handleAuthRoute J B e0 "GET" g db0).db =
      ⟨.tokens ⟨A2, generateRefreshToken e1.nowRefresh g⟩,
        UpdateOne (handleAuthRoute J B e0 "GET" g db0).db g
          ⟨10, e1.salt, bcryptSum B (generateRefreshToken e1.nowRefresh g) 10 e1.salt⟩
          (bsonDateTime (e1.nowUpsert + refreshExpirationTime)),
        [.find g, .update g]⟩ ∧
    FindOne (handleRefreshRoute J B e1 "POST" (some ⟨A1, R1⟩)
        (handleAuthRoute J B e0 "GET" g db0).db).db g =
      some ⟨g, ⟨10, e1.salt, bcryptSum B (generateRefreshToken e1.nowRefresh g) 10 e1.salt⟩,
        bsonDateTime (e1.nowUpsert + refreshExpirationTime)⟩ := by
  obtain ⟨-, -, hR, hlen, -, hres⟩ := handleAuthRoute_tokens_inv J B e0 g db0 A1 R1 hauth
  have hdec : decodeGuidFromJWT J e1.nowParse A1 = .ret (g, .nil) :=
    decodeGuidFromJWT_of_expired J e1.nowParse A1 g hparse
  have hlen2 : (generateRefreshToken e1.nowRefresh g).length ≤ maxPasswordLength := by
    rw [length_generateRefreshToken]
    rw [hR, length_generateRefreshToken] at hlen
    exact hlen
  have hhash := hashRefreshToken_of_le B e1.salt _ hlen2
  have hrun : handleRefreshRoute J B e1 "POST" (some ⟨A1, R1⟩)
      (handleAuthRoute J B e0 "GET" g db0).db =
      ⟨.tokens ⟨A2, generateRefreshToken e1.nowRefresh g⟩,
        UpdateOne (handleAuthRoute J B e0 "GET" g db0).db g
          ⟨10, e1.salt, bcryptSum B (generateRefreshToken e1.nowRefresh g) 10 e1.salt⟩
          (bsonDateTime (e1.nowUpsert + refreshExpirationTime)),
        [.find g, .update g]⟩ := by
    rw [handleRefreshRoute_accepted J B e1 A1 A2 R1 g _
      ⟨g, ⟨10, e0.salt, bcryptSum B R1 10 e0.salt⟩,
        bsonDateTime (e0.nowUpsert + refreshExpirationTime)⟩
      hdec hsign hfe (by rw [hres]; exact FindOne_UpdateOne_same _ _ _ _)]
    rw [if_neg (Nat.not_lt.mpr hlive)]
    simp [checkRefreshTokenHash_self, hhash, upsertRefreshToken, hue]
  refine ⟨hdec, hhash, hrun, ?_⟩
  rw [hrun]
  exact FindOne_UpdateOne_same _ _ _ _

/-- C2 (witness): Authenticate("u1") one nanosecond after the epoch, then Refresh
two hours later with the issued pair, on the reference libraries. -/
theorem refresh_after_access_expiry_witness :
    decodeGuidFromJWT refJwt (2 * hour) ⟨⟨1 + jwtExpirationTime, u1⟩, secretKey⟩ =
      .ret (u1, .nil) ∧
    hashRefreshToken refBcrypt 8 (generateRefreshToken (2 * hour) u1) =
      some ⟨10, 8, bcryptSum refBcrypt (generateRefreshToken (2 * hour) u1) 10 8⟩ ∧
    handleRefreshRoute refJwt refBcrypt (RefreshEnv.atInstant (2 * hour) 8) "POST"
        (some ⟨⟨⟨1 + jwtExpirationTime, u1⟩, secretKey⟩, generateRefreshToken 1 u1⟩)
        (handleAuthRoute refJwt refBcrypt ⟨1, 1, 1, 7, false⟩ "GET" u1 []).db =
      ⟨.tokens ⟨⟨⟨2 * hour + jwtExpirationTime, u1⟩, secretKey⟩,
          generateRefreshToken (2 * hour) u1⟩,
        UpdateOne (handleAuthRoute refJwt refBcrypt ⟨1, 1, 1, 7, false⟩ "GET" u1 []).db u1
          ⟨10, 8, bcryptSum refBcrypt (generateRefreshToken (2 * hour) u1) 10 8⟩
          (bsonDateTime (2 * hour + refreshExpirationTime)),
        [.find u1, .update u1]⟩ ∧
    FindOne (handleRefreshRoute refJwt refBcrypt (RefreshEnv.atInstant (2 * hour) 8) "POST"
        (some ⟨⟨⟨1 + jwtExpirationTime, u1⟩, secretKey⟩, generateRefreshToken 1 u1⟩)
        (handleAuthRoute refJwt refBcrypt ⟨1, 1, 1, 7, false⟩ "GET" u1 []).db).db u1 =
      some ⟨u1, ⟨10, 8, bcryptSum refBcrypt (generateRefreshToken (2 * hour) u1) 10 8⟩,
        bsonDateTime (2 * hour + refreshExpirationTime)⟩ :=
  refresh_after_access_expiry refJwt refBcrypt ⟨1, 1, 1, 7, false⟩
    (RefreshEnv.atInstant (2 * hour) 8) u1 [] ⟨⟨1 + jwtExpirationTime, u1⟩, secretKey⟩
    ⟨⟨2 * hour + jwtExpirationTime, u1⟩, secretKey⟩ (generateRefreshToken 1 u1)
    (by decide) (by decide) (by decide) (by decide) (by decide) (by decide)

/-! ## Claims on store failures and on issuance -/

/-- C7 (counterexample): with a failing `UpdateOne`, Authenticate("u1") ends in
`log.Fatal`, and so does an otherwise successful Refresh; with a failing `FindOne`,
Refresh answers 404. None of the three is the server-error response. -/
theorem store_failure_is_not_server_error :
    (handleAuthRoute refJwt refBcrypt ⟨0, 0, 0, 7, true⟩ "GET" u1 []).out = .fatal ∧
    (handleRefreshRoute refJwt refBcrypt
        ⟨2 * hour, 2 * hour, 2 * hour, 2 * hour, 2 * hour, 8, false, true⟩ "POST"
        (some ⟨tokenA1, generateRefreshToken 0 u1⟩) issued0.db).out = .fatal ∧
    (handleRefreshRoute refJwt refBcrypt
        ⟨2 * hour, 2 * hour, 2 * hour, 2 * hour, 2 * hour, 8, true, false⟩ "POST"
        (some ⟨tokenA1, generateRefreshToken 0 u1⟩) issued0.db).out = .error errNotFound ∧
    (Outcome.fatal : Outcome RefToken) ≠ .error errServer ∧
    (Outcome.error errNotFound : Outcome RefToken) ≠ .error errServer := by
  decide

/-- C7 (as amended): a store failure returns no credentials and leaves the
collection unchanged, but it is not answered with a server error. A failing
`UpdateOne`, reached once the earlier steps of handleAuthRoute or
handleRefreshRoute have passed, ends in `log.Fatal`; a failing `FindOne` in
handleRefreshRoute, whatever its error, gets the 404 response. -/
theorem store_failure_outcomes {Tok : Type} (J : Jwt Tok) (B : Bcrypt) :
    (∀ (env : AuthEnv) (g : GoString) (db : Collection) (A : Tok),
      g ≠ [] → generateJWT J env.nowJWT g = some A → g.length ≤ 40 → env.upsertErr = true →
      handleAuthRoute J B env "GET" g db = ⟨.fatal, db, [.update g]⟩) ∧
    (∀ (env : RefreshEnv) (tok A : Tok) (rt g : GoString) (db : Collection),
      decodeGuidFromJWT J env.nowParse tok = .ret (g, .nil) →
      generateJWT J env.nowJWT g = some A → env.findErr = true →
      handleRefreshRoute J B env "POST" (some ⟨tok, rt⟩) db =
        ⟨.error errNotFound, db, [.find g]⟩) ∧
    (∀ (env : RefreshEnv) (tok A : Tok) (rt g : GoString) (db : Collection)
      (result : UserRefreshToken),
      decodeGuidFromJWT J env.nowParse tok = .ret (g, .nil) →
      generateJWT J env.nowJWT g = some A → env.findErr = false →
      FindOne db g = some result → env.nowAfter ≤ result.ExpirationTime →
      checkRefreshTokenHash B rt result.RefreshToken = true → g.length ≤ 40 →
      env.upsertErr = true →
      handleRefreshRoute J B env "POST" (some ⟨tok, rt⟩) db =
        ⟨.fatal, db, [.find g, .update g]⟩) := by
  refine ⟨?_, ?_, ?_⟩
  · intro env g db A hg hj hlen hu
    have hl : (generateRefreshToken env.nowRefresh g).length ≤ maxPasswordLength := by
      rw [length_generateRefreshToken]; simp only [maxPasswordLength]; omega
    simp [handleAuthRoute, hg, hj, hashRefreshToken_of_le B env.salt _ hl, upsertRefreshToken, hu]
  · intro env tok A rt g db hdec hj hf
    simp [handleRefreshRoute, hdec, hj, hf]
  · intro env tok A rt g db result hdec hj hf hrec hlive hok hlen hu
    have hl : (generateRefreshToken env.nowRefresh g).length ≤ maxPasswordLength := by
      rw [length_generateRefreshToken]; simp only [maxPasswordLength]; omega
    rw [handleRefreshRoute_accepted J B env tok A rt g db result hdec hj hf hrec,
      if_neg (Nat.not_lt.mpr hlive)]
    simp [hok, hashRefreshToken_of_le B env.salt _ hl, upsertRefreshToken, hu]

/-- C7 (witness): the three cases on the reference libraries and the collection
left by Authenticate("u1"). -/
theorem store_failure_outcomes_witness :
    handleAuthRoute refJwt refBcrypt ⟨0, 0, 0, 7, true⟩ "GET" u1 [] =
      ⟨.fatal, [], [.update u1]⟩ ∧
    handleRefreshRoute refJwt refBcrypt
        ⟨2 * hour, 2 * hour, 2 * hour, 2 * hour, 2 * hour, 8, true, false⟩ "POST"
        (some ⟨tokenA1, generateRefreshToken 0 u1⟩) issued0.db =
      ⟨.error errNotFound, issued0.db, [.find u1]⟩ ∧
    handleRefreshRoute refJwt refBcrypt
        ⟨2 * hour, 2 * hour, 2 * hour, 2 * hour, 2 * hour, 8, false, true⟩ "POST"
        (some ⟨tokenA1, generateRefreshToken 0 u1⟩) issued0.db =
      ⟨.fatal, issued0.db, [.find u1, .update u1]⟩ :=
  ⟨(store_failure_outcomes refJwt refBcrypt).1 ⟨0, 0, 0, 7, true⟩ u1 [] tokenA1
      (by decide) (by decide) (by decide) (by decide),
    (store_failure_outcomes refJwt refBcrypt).2.1
      ⟨2 * hour, 2 * hour, 2 * hour, 2 * hour, 2 * hour, 8, true, false⟩ tokenA1
      ⟨⟨2 * hour + jwtExpirationTime, u1⟩, secretKey⟩ (generateRefreshToken 0 u1) u1 issued0.db
      (by decide) (by decide) (by decide),
    (store_failure_outcomes refJwt refBcrypt).2.2
      ⟨2 * hour, 2 * hour, 2 * hour, 2 * hour, 2 * hour, 8, false, true⟩ tokenA1
      ⟨⟨2 * hour + jwtExpirationTime, u1⟩, secretKey⟩ (generateRefreshToken 0 u1) u1 issued0.db
      ⟨u1, ⟨10, 7, bcryptSum refBcrypt (generateRefreshToken 0 u1) 10 7⟩, refreshExpirationTime⟩
      (by decide) (by decide) (by decide) (by decide) (by decide) (by decide) (by decide)
      (by decide)⟩

theorem bsonDateTime_bounds (t : Nat) : bsonDateTime t ≤ t ∧ t < bsonDateTime t + 1000000 := by
  simp only [bsonDateTime]
  omega

/-- C8 (counterexample): for a non-empty identity of 41 bytes the refresh secret
has 76 bytes, hashing fails, and Authenticate answers with the server-error
response, returns no pair and stores nothing; and after Authenticate("u1") with the
upsert one nanosecond after the epoch, the stored expiration is 30 days, not that
instant plus 30 days. -/
theorem auth_fails_for_long_identity :
    guid41 ≠ [] ∧ guid41.length = 41 ∧ (generateRefreshToken 0 guid41).length = 76 ∧
    hashRefreshToken refBcrypt 7 (generateRefreshToken 0 guid41) = none ∧
    handleAuthRoute refJwt refBcrypt ⟨0, 0, 0, 7, false⟩ "GET" guid41 [] =
      ⟨.error errServer, [], []⟩ ∧
    FindOne (handleAuthRoute refJwt refBcrypt ⟨1, 1, 1, 7, false⟩ "GET" u1 []).db u1 =
      some ⟨u1, ⟨10, 7, bcryptSum refBcrypt (generateRefreshToken 1 u1) 10 7⟩,
        refreshExpirationTime⟩ ∧
    refreshExpirationTime ≠ 1 + refreshExpirationTime := by
  decide

/-- C8 (as amended): for a non-empty identity and any prior collection with unique
ids. If the identity has at most 40 bytes and signing and the store work,
Authenticate returns the access token and the refresh secret and leaves exactly
one document for the identity; its digest verifies the returned secret, its
expiration is the instant of the upsert plus 30 days cut to the millisecond (so
less than a millisecond earlier), it is the same whatever the collection held
before, and the documents of the other identities are as they were. If the
identity has 41 bytes or more, Authenticate answers with the server-error
response, returns no pair and leaves the collection untouched. -/
theorem auth_issues_session {Tok : Type} (J : Jwt Tok) (B : Bcrypt) (env : AuthEnv)
    (g : GoString) (db : Collection) (hg : g ≠ []) :
    (∀ A : Tok, g.length ≤ 40 → generateJWT J env.nowJWT g = some A →
      env.upsertErr = false → UniqueIds db →
      (handleAuthRoute J B env "GET" g db).out =
        .tokens ⟨A, generateRefreshToken env.nowRefresh g⟩ ∧
      FindOne (handleAuthRoute J B env "GET" g db).db g =
        some ⟨g, ⟨10, env.salt,
            bcryptSum B (generateRefreshToken env.nowRefresh g) 10 env.salt⟩,
          bsonDateTime (env.nowUpsert + refreshExpirationTime)⟩ ∧
      ((documentsOf (handleAuthRoute J B env "GET" g db).db g).length = 1 ∧
        UniqueIds (handleAuthRoute J B env "GET" g db).db) ∧
      checkRefreshTokenHash B (generateRefreshToken env.nowRefresh g)
        ⟨10, env.salt, bcryptSum B (generateRefreshToken env.nowRefresh g) 10 env.salt⟩ =
        true ∧
      (refreshExpirationTime = 30 * 24 * 3600 * 1000000000 ∧
        bsonDateTime (env.nowUpsert + refreshExpirationTime) ≤
          env.nowUpsert + refreshExpirationTime ∧
        env.nowUpsert + refreshExpirationTime <
          bsonDateTime (env.nowUpsert + refreshExpirationTime) + 1000000) ∧
      (∀ other : GoString, other ≠ g →
        FindOne (handleAuthRoute J B env "GET" g db).db other = FindOne db other)) ∧
    (41 ≤ g.length →
      handleAuthRoute J B env "GET" g db = ⟨.error errServer, db, []⟩) := by
  constructor
  · intro A hlen hsign hue huniq
    have hl : (generateRefreshToken env.nowRefresh g).length ≤ maxPasswordLength := by
      rw [length_generateRefreshToken]; simp only [maxPasswordLength]; omega
    have hrun : handleAuthRoute J B env "GET" g db =
        ⟨.tokens ⟨A, generateRefreshToken env.nowRefresh g⟩,
          UpdateOne db g
            ⟨10, env.salt, bcryptSum B (generateRefreshToken env.nowRefresh g) 10 env.salt⟩
            (bsonDateTime (env.nowUpsert + refreshExpirationTime)), [.update g]⟩ := by
      simp [handleAuthRoute, hg, hsign, hashRefreshToken_of_le B env.salt _ hl,
        upsertRefreshToken, hue]
    rw [hrun]
    refine ⟨rfl, FindOne_UpdateOne_same _ _ _ _, ⟨?_, UniqueIds_UpdateOne _ _ _ _ huniq⟩,
      checkRefreshTokenHash_self _ _ _ _,
      ⟨by decide, (bsonDateTime_bounds _).1, (bsonDateTime_bounds _).2⟩, ?_⟩
    · exact documentsOf_length_of_unique _ _ (UniqueIds_UpdateOne _ _ _ _ huniq)
        (mem_ids_UpdateOne _ _ _ _)
    · intro other ho
      exact FindOne_UpdateOne_other _ _ _ _ _ ho
  · intro hlen
    have hl : maxPasswordLength < (generateRefreshToken env.nowRefresh g).length := by
      rw [length_generateRefreshToken]; simp only [maxPasswordLength]; omega
    cases hj : generateJWT J env.nowJWT g with
    | none => simp [handleAuthRoute, hg, hj]
    | some A => simp [handleAuthRoute, hg, hj, hashRefreshToken_of_gt B env.salt _ hl]

/-- C8 (witness): Authenticate("u1") five nanoseconds after the epoch on the
collection left by an earlier Authenticate("u1"), and Authenticate of the identity
of 41 bytes on the same collection. -/
theorem auth_issues_session_witness :
    ((handleAuthRoute refJwt refBcrypt ⟨5, 5, 5, 9, false⟩ "GET" u1 issued0.db).out =
        .tokens ⟨⟨⟨5 + jwtExpirationTime, u1⟩, secretKey⟩, generateRefreshToken 5 u1⟩ ∧
      FindOne (handleAuthRoute refJwt refBcrypt ⟨5, 5, 5, 9, false⟩ "GET" u1 issued0.db).db
          u1 =
        some ⟨u1, ⟨10, 9, bcryptSum refBcrypt (generateRefreshToken 5 u1) 10 9⟩,
          bsonDateTime (5 + refreshExpirationTime)⟩ ∧
      ((documentsOf (handleAuthRoute refJwt refBcrypt ⟨5, 5, 5, 9, false⟩ "GET" u1
          issued0.db).db u1).length = 1 ∧
        UniqueIds
          (handleAuthRoute refJwt refBcrypt ⟨5, 5, 5, 9, false⟩ "GET" u1 issued0.db).db) ∧
      checkRefreshTokenHash refBcrypt (generateRefreshToken 5 u1)
        ⟨10, 9, bcryptSum refBcrypt (generateRefreshToken 5 u1) 10 9⟩ = true ∧
      (refreshExpirationTime = 30 * 24 * 3600 * 1000000000 ∧
        bsonDateTime (5 + refreshExpirationTime) ≤ 5 + refreshExpirationTime ∧
        5 + refreshExpirationTime < bsonDateTime (5 + refreshExpirationTime) + 1000000) ∧
      (∀ other : GoString, other ≠ u1 →
        FindOne (handleAuthRoute refJwt refBcrypt ⟨5, 5, 5, 9, false⟩ "GET" u1 issued0.db).db
          other = FindOne issued0.db other)) ∧
    handleAuthRoute refJwt refBcrypt ⟨5, 5, 5, 9, false⟩ "GET" guid41 issued0.db =
      ⟨.error errServer, issued0.db, []⟩ :=
  ⟨(auth_issues_session refJwt refBcrypt ⟨5, 5, 5, 9, false⟩ u1 issued0.db (by decide)).1
      ⟨⟨5 + jwtExpirationTime, u1⟩, secretKey⟩ (by decide) (by decide) (by decide)
      (by unfold UniqueIds; decide),
    (auth_issues_session refJwt refBcrypt ⟨5, 5, 5, 9, false⟩ guid41 issued0.db
      (by decide)).2 (by decide)⟩

/-! ## Claims on the hasher -/

end Medods
